import Mathlib

/-!
Shallow embedding of the diagram synchronization engine of the
ai-mermaid repository (src/App.tsx, src/components/ExcalidrawWrapper.tsx,
src/types.ts), together with theorems settling the frozen claims about it.

External library calls (mermaid.render, JSON.parse, parseMermaidToExcalidraw)
are modelled by their outcomes, passed to the embedded functions as explicit
parameters; everything the repository's own code does with those outcomes is
translated faithfully.
-/

namespace AiMermaid

/-! ## Generic helpers (JavaScript semantics used by the source) -/

/-- Whether the second list starts with the first (literal character match). -/
def leadsWith : List Char → List Char → Bool
  | [], _ => true
  | _ :: _, [] => false
  | a :: as, b :: bs => a = b && leadsWith as bs

/-- Whether `pat` occurs as a contiguous run somewhere in the list.
Models JavaScript `String.prototype.includes`. -/
def occursIn (pat : List Char) : List Char → Bool
  | [] => leadsWith pat []
  | c :: rest => leadsWith pat (c :: rest) || occursIn pat rest

/-- Models the emptiness test `!code.trim()` in App.tsx line 355: the trimmed
string is empty exactly when every character is whitespace. -/
def isBlank (code : String) : Bool := code.toList.all Char.isWhitespace

/-- JavaScript `v || d` for an optional number: `undefined` and `0` are falsy. -/
def jsOrNum (v : Option Int) (d : Int) : Int :=
  match v with
  | some n => if n = 0 then d else n
  | none => d

/-- JavaScript `v || d` for an optional string: `undefined` and `""` are falsy. -/
def jsOrStr (v : Option String) (d : String) : String :=
  match v with
  | some s => if s = "" then d else s
  | none => d

/-- JavaScript truthiness of an optional string field. -/
def truthyStr (v : Option String) : Bool :=
  match v with
  | some s => s != ""
  | none => false

/-! ## Data model (src/types.ts) -/

/-- JSON values, as produced by the external `JSON.parse` /
`parseMermaidToExcalidraw` calls whose results flow into `DiagramState`. -/
inductive Json where
  | null : Json
  | bool (b : Bool) : Json
  | num (n : Int) : Json
  | str (s : String) : Json
  | arr (xs : List Json) : Json
  | obj (fields : List (String × Json)) : Json

/-- Whether a JSON value is an array. -/
def Json.isArr : Json → Bool
  | .arr _ => true
  | _ => false

/-- DiagramType enum (src/types.ts). -/
inductive DiagramType where
  | MERMAID
  | EXCALIDRAW
deriving Repr, DecidableEq

/-- DiagramState (src/types.ts): the externally persisted unit. -/
structure DiagramState where
  mermaidCode : String
  excalidrawElements : Json
  title : String

/-- HistoryItem (src/types.ts). -/
structure HistoryItem where
  id : String
  timestamp : Nat
  type : DiagramType
  preview : String
  state : DiagramState

/-- The App component's state relevant to generation / conversion / history
(src/App.tsx lines 13-30). -/
structure AppState where
  activeTab : DiagramType
  isLoading : Bool
  diagramState : DiagramState
  history : List HistoryItem

/-! ## saveToHistory (src/App.tsx lines 53-64) -/

/-- The history item built by `saveToHistory`; `now` stands for `Date.now()`. -/
def mkHistoryItem (now : Nat) (tab : DiagramType) (newState : DiagramState) :
    HistoryItem :=
  { id := toString now
    timestamp := now
    type := tab
    preview := newState.title
    state := newState }

/-- saveToHistory: prepends the new item and keeps the first 20
(`[newItem, ...history].slice(0, 20)`). -/
def saveToHistory (now : Nat) (st : AppState) (newState : DiagramState) :
    AppState :=
  let newItem := mkHistoryItem now st.activeTab newState
  { st with history := (newItem :: st.history).take 20 }

/-! ## handleGenerate (src/App.tsx lines 66-93)

`generateDiagramCode` is an external service call: its outcome is the
`genResult` parameter (`none` = the call threw, caught at line 87).  In the
EXCALIDRAW branch the external `JSON.parse(response)` is modelled by
`parseOutcome` (`none` = parse threw, caught at line 82).  The returned `Bool`
records whether a blocking `alert` was shown. -/

def handleGenerate (now : Nat) (st : AppState) (prompt : String)
    (genResult : Option String) (parseOutcome : Option Json) :
    AppState × Bool :=
  match genResult with
  | none => ({ st with isLoading := false }, true)
  | some response =>
    match st.activeTab with
    | .MERMAID =>
      let newState := { st.diagramState with
                          mermaidCode := response
                          title := prompt.take 30 }
      let st1 := { st with diagramState := newState }
      let st2 := saveToHistory now st1 newState
      ({ st2 with isLoading := false }, false)
    | .EXCALIDRAW =>
      match parseOutcome with
      | some elements =>
        let newState := { st.diagramState with
                            excalidrawElements := elements
                            title := prompt.take 30 }
        let st1 := { st with diagramState := newState }
        let st2 := saveToHistory now st1 newState
        ({ st2 with isLoading := false }, false)
      | none => ({ st with isLoading := false }, true)

/-! ## handleConvertToExcalidraw (src/App.tsx lines 95-130)

The external `parseMermaidToExcalidraw` call is modelled by `convResult`
(`none` = it threw, caught at line 123).  On success the code updates
`diagramState.excalidrawElements` and switches the tab; it does not call
`saveToHistory`. -/

def handleConvertToExcalidraw (st : AppState) (convResult : Option Json) :
    AppState × Bool :=
  match convResult with
  | some els =>
    ({ st with
        diagramState := { st.diagramState with excalidrawElements := els }
        activeTab := .EXCALIDRAW
        isLoading := false }, false)
  | none => ({ st with isLoading := false }, true)

/-! ## MermaidEditor render path (src/App.tsx, MermaidEditor, lines 354-375)

The editor state relevant to rendering is `svgContent` and `error`.  The
external `mermaid.render` call is modelled by a `RenderOutcome` parameter. -/

structure EditorState where
  svgContent : String
  error : Option String
deriving Repr, DecidableEq

/-- Outcome of the external `mermaid.render(id, code)` call: it either
resolves with an svg string or rejects with an error whose `message` field is
modelled here (`""` stands for an absent/empty message). -/
inductive RenderOutcome where
  | success (svg : String)
  | failure (message : String)
deriving Repr, DecidableEq

/-- The error classification in the catch block of `renderDiagram` (lines
366-373): an empty message becomes "Syntax Error"; messages containing
"suitable point" or "read property \x27x\x27" are rewritten to the stable
layout-failure message; everything else passes through verbatim. -/
def classifyRenderError (message : String) : String :=
  let msg := if message = "" then "Syntax Error" else message
  if occursIn "suitable point".toList msg.toList ||
     occursIn "read property \x27x\x27".toList msg.toList then
    "Layout calculation failed. Try simplifying the diagram or switching orientation."
  else msg

/-- The synchronous head of `renderDiagram`, run at request time: on blank
source it clears the scene and the error and returns early (lines 355-359);
otherwise it clears the error (line 362) before awaiting `mermaid.render`. -/
def requestRender (st : EditorState) (code : String) : EditorState :=
  if isBlank code then { st with svgContent := "", error := none }
  else { st with error := none }

/-- The continuation of `renderDiagram` after `mermaid.render` settles: a
success stores the svg (line 365), a failure stores the classified message
(line 373).  The code applies the outcome unconditionally: `renderDiagram`
carries no request-generation counter, so nothing discards the result of a
superseded request. -/
def completeRender (st : EditorState) (outcome : RenderOutcome) : EditorState :=
  match outcome with
  | .success svg => { st with svgContent := svg }
  | .failure message => { st with error := some (classifyRenderError message) }

/-- A whole `renderDiagram` call with no interleaving: on blank source the
function returns before ever calling `mermaid.render`, so the outcome is
irrelevant there. -/
def renderDiagram (st : EditorState) (code : String) (outcome : RenderOutcome) :
    EditorState :=
  if isBlank code then requestRender st code
  else completeRender (requestRender st code) outcome

/-! ## submitNodeUpdate (src/App.tsx, MermaidEditor, lines 419-440)

The code builds
`new RegExp('(\\[|\\(|\\{|>|\\/)([\\s]*OLD[\\s]*)(\\]|\\)|\\}|\\)|\\\\)', 'g')`
where `OLD` is the old label with regex metacharacters escaped (so it matches
literally), and runs `code.replace(regex, '$1' + newText + '$3')`.  With the
`g` flag, `replace` rewrites every non-overlapping match, scanning left to
right and resuming after each replaced span. -/

/-- The opening-delimiter alternation of the pattern. -/
def openDelims : List Char := ['[', '(', Char.ofNat 123, '>', '/']

/-- The closing-delimiter alternation of the pattern (`]`, `)`, `\x7d`, a
duplicate `)`, and a backslash). -/
def closeDelims : List Char := [']', ')', Char.ofNat 125, '\\']

/-- Matches the fragment `[\s]*OLD` at the head of `cs` (greedy whitespace,
longest run first, falling back to matching `OLD` directly), returning the
remainder after `OLD`. -/
def matchWsThenText (old : List Char) : List Char → Option (List Char)
  | [] => if old.isEmpty then some [] else none
  | c :: rest =>
    if c.isWhitespace then
      match matchWsThenText old rest with
      | some r => some r
      | none =>
        if leadsWith old (c :: rest) then some ((c :: rest).drop old.length)
        else none
    else
      if leadsWith old (c :: rest) then some ((c :: rest).drop old.length)
      else none

/-- Matches the fragment `[\s]*(closer)` at the head of the list; the closers
are not whitespace, so the greedy whitespace run is unambiguous. -/
def matchWsThenCloser : List Char → Option (Char × List Char)
  | [] => none
  | c :: rest =>
    if c.isWhitespace then matchWsThenCloser rest
    else if closeDelims.contains c then some (c, rest) else none

/-- One attempt to match the full pattern at the head of `cs`, returning the
opening delimiter, the closing delimiter, and the remainder after the match. -/
def matchNodePattern (old : List Char) (cs : List Char) :
    Option (Char × Char × List Char) :=
  match cs with
  | [] => none
  | c :: rest =>
    if openDelims.contains c then
      match matchWsThenText old rest with
      | some afterText =>
        match matchWsThenCloser afterText with
        | some (closer, remaining) => some (c, closer, remaining)
        | none => none
      | none => none
    else none

/-- The global `replace`: every match is rewritten to
opener ++ newText ++ closer, and scanning resumes after the match.  `fuel`
starts at the input length; each step consumes at least one character. -/
def replaceAllNodeAux (old new : List Char) : Nat → List Char → List Char
  | 0, cs => cs
  | _ + 1, [] => []
  | fuel + 1, c :: rest =>
    match matchNodePattern old (c :: rest) with
    | some (op, cl, remaining) =>
      op :: (new ++ cl :: replaceAllNodeAux old new fuel remaining)
    | none => c :: replaceAllNodeAux old new fuel rest

/-- submitNodeUpdate's source rewrite: replaces the delimiter-enclosed
occurrences of the old label by the new text (see the global-flag note
above). -/
def submitNodeUpdate (oldText newText code : String) : String :=
  String.mk (replaceAllNodeAux oldText.toList newText.toList
    code.toList.length code.toList)

/-! ## toggleOrientation (src/App.tsx, MermaidEditor, lines 450-462) -/

/-- The editor's orientation state (`useState<'TD' | 'LR'>('TD')`). -/
inductive EditorDir where
  | TD
  | LR
deriving Repr, DecidableEq

/-- The direction-keyword alternation `(TD|LR|TB|BT|RL)`, in source order. -/
def dirTokens : List String := ["TD", "LR", "TB", "BT", "RL"]

/-- Matches `(graph|flowchart)\s+(TD|LR|TB|BT|RL)` at the head of `cs` and
produces the replaced remainder (`$1 newDir` followed by the text after the
matched direction keyword). -/
def tryDirHead (newDir : String) (cs : List Char) : Option (List Char) :=
  let kw :=
    if leadsWith "graph".toList cs then some "graph".toList
    else if leadsWith "flowchart".toList cs then some "flowchart".toList
    else none
  match kw with
  | none => none
  | some k =>
    let afterKw := cs.drop k.length
    let ws := afterKw.takeWhile Char.isWhitespace
    if ws.isEmpty then none
    else
      let afterWs := afterKw.drop ws.length
      match dirTokens.find? (fun d => leadsWith d.toList afterWs) with
      | some d => some (k ++ ' ' :: newDir.toList ++ afterWs.drop d.length)
      | none => none

/-- First-match replace for `/^(graph|flowchart)\s+(TD|LR|TB|BT|RL)/m`: the
match must begin at the start of the string or right after a newline.
Returns `none` when there is no match (so the caller keeps the code
unchanged, as `String.replace` does). -/
def replaceDirLineAux (newDir : String) : Bool → List Char → Option (List Char)
  | _, [] => none
  | atStart, c :: rest =>
    if atStart then
      match tryDirHead newDir (c :: rest) with
      | some replaced => some replaced
      | none =>
        match replaceDirLineAux newDir (c = '\n') rest with
        | some l => some (c :: l)
        | none => none
    else
      match replaceDirLineAux newDir (c = '\n') rest with
      | some l => some (c :: l)
      | none => none

/-- Matches `(graph|flowchart)\s+[A-Z]+` at the head of `cs` (the second,
unanchored fallback regex of `toggleOrientation`). -/
def tryDirHeadCaps (newDir : String) (cs : List Char) : Option (List Char) :=
  let kw :=
    if leadsWith "graph".toList cs then some "graph".toList
    else if leadsWith "flowchart".toList cs then some "flowchart".toList
    else none
  match kw with
  | none => none
  | some k =>
    let afterKw := cs.drop k.length
    let ws := afterKw.takeWhile Char.isWhitespace
    if ws.isEmpty then none
    else
      let afterWs := afterKw.drop ws.length
      let caps := afterWs.takeWhile Char.isUpper
      if caps.isEmpty then none
      else some (k ++ ' ' :: newDir.toList ++ afterWs.drop caps.length)

/-- First-match replace for the unanchored fallback regex. -/
def replaceDirAnyAux (newDir : String) : List Char → Option (List Char)
  | [] => none
  | c :: rest =>
    match tryDirHeadCaps newDir (c :: rest) with
    | some replaced => some replaced
    | none =>
      match replaceDirAnyAux newDir rest with
      | some l => some (c :: l)
      | none => none

/-- toggleOrientation: flips the orientation state, rewrites the first
direction keyword on a `graph`/`flowchart` header line, and falls back to
prepending a header (when the code does not start with `graph`/`flowchart`)
or to the unanchored uppercase-keyword replace. -/
def toggleOrientation (orientation : EditorDir) (code : String) :
    EditorDir × String :=
  let newDirStr := match orientation with | .TD => "LR" | .LR => "TD"
  let newDir := match orientation with | .TD => EditorDir.LR | .LR => EditorDir.TD
  let newCode :=
    match replaceDirLineAux newDirStr true code.toList with
    | some l => String.mk l
    | none => code
  let startsGraph := leadsWith "graph".toList code.toList ||
    leadsWith "flowchart".toList code.toList
  let finalCode :=
    if (newCode == code) && !startsGraph then
      "graph " ++ newDirStr ++ "\n" ++ code
    else if newCode == code then
      match replaceDirAnyAux newDirStr code.toList with
      | some l => String.mk l
      | none => code
    else newCode
  (newDir, finalCode)

/-! ## Zoom handlers (src/App.tsx, MermaidEditor, lines 654-688)

The zoom-out button runs `setScale(s => Math.max(0.1, s - 0.1))`, the zoom-in
button `setScale(s => Math.min(5, s + 0.1))`, and the ctrl/cmd wheel handler
`setScale(s => Math.max(0.1, Math.min(5, s - e.deltaY * 0.001)))`.  The scale
is modelled as an exact rational. -/

inductive ZoomOp where
  | zoomIn
  | zoomOut
  | wheel (deltaY : ℚ)

/-- One zoom state update. -/
def applyZoom (s : ℚ) : ZoomOp → ℚ
  | .zoomIn => min 5 (s + 1 / 10)
  | .zoomOut => max (1 / 10) (s - 1 / 10)
  | .wheel deltaY => max (1 / 10) (min 5 (s - deltaY * (1 / 1000)))

/-- A sequence of zoom operations applied to a starting scale. -/
def runZoom (s : ℚ) (ops : List ZoomOp) : ℚ := ops.foldl applyZoom s

/-! ## Element normalizer (src/components/ExcalidrawWrapper.tsx, lines 28-103)

The wrapper's element-loading effect receives an untyped list (`any[]`).  An
input record is modelled with the optional fields the effect reads; absent
JavaScript fields are `none`.  Numeric fields are modelled as integers. -/

structure RawEl where
  id : Option String := none
  type : Option String := none
  strokeColor : Option String := none
  backgroundColor : Option String := none
  x : Option Int := none
  y : Option Int := none
  width : Option Int := none
  height : Option Int := none
  startX : Option Int := none
  startY : Option Int := none
  endX : Option Int := none
  endY : Option Int := none
  label : Option String := none
  text : Option String := none
  fontSize : Option Int := none
deriving Repr, DecidableEq

/-- The truthiness test `el.id && el.type` applied to one item. -/
def hasIdAndType (el : RawEl) : Bool :=
  truthyStr el.id && truthyStr el.type

/-- Line 34: `elements.some(el => el.id && el.type)`. -/
def isAlreadyExcalidraw (els : List RawEl) : Bool :=
  els.any hasIdAndType

/-- Modelled from the spec's words for comparison with the source's
`isAlreadyExcalidraw`: "if every item already carries an identity and kind
field ... it is treated as already canonical". -/
def specAlreadyCanonical (els : List RawEl) : Bool :=
  els.all hasIdAndType

/-- The dark-mode stroke patch on one pass-through element (lines 43-48):
a stroke that is `'#000000'`, `'black'`, or falsy (absent or empty) becomes
the light slate `'#e2e8f0'`; anything else is untouched. -/
def patchEl (el : RawEl) : RawEl :=
  if el.strokeColor == some "#000000" || el.strokeColor == some "black" ||
     !truthyStr el.strokeColor then
    { el with strokeColor := some "#e2e8f0" }
  else el

/-- The pass-through branch's treatment of the element list (lines 36-49):
a shallow clone, plus the stroke patch when in dark mode. -/
def colorPatch (isDarkMode : Bool) (els : List RawEl) : List RawEl :=
  if isDarkMode then els.map patchEl else els

/-- Canonical output element built by the descriptor-mapping branch
(lines 52-92). -/
structure OutEl where
  id : String
  type : String
  roughness : Int
  strokeWidth : Int
  fillStyle : String
  strokeColor : String
  backgroundColor : String
  x : Int
  y : Int
  width : Option Int := none
  height : Option Int := none
  points : Option (List (Int × Int)) := none
  label : Option String := none
  text : Option String := none
  fontSize : Option Int := none
deriving Repr, DecidableEq

/-- The per-kind mapping of one ShapeDescriptor (lines 52-92); `index` is the
item's position and `now` stands for `Date.now()`.  Unrecognized kinds map to
`none` and are filtered out. -/
def mapDescriptor (isDarkMode : Bool) (now : Nat) (index : Nat) (el : RawEl) :
    Option OutEl :=
  let base : OutEl :=
    { id := "el-" ++ toString index ++ "-" ++ toString now
      type := ""
      roughness := 1
      strokeWidth := 1
      fillStyle := "solid"
      strokeColor := if isDarkMode then "#e2e8f0" else "#1e293b"
      backgroundColor := jsOrStr el.backgroundColor "transparent"
      x := 0
      y := 0 }
  if el.type == some "rectangle" || el.type == some "ellipse" then
    some { base with
            type := jsOrStr el.type ""
            x := jsOrNum el.x 0
            y := jsOrNum el.y 0
            width := some (jsOrNum el.width 100)
            height := some (jsOrNum el.height 50)
            label := if truthyStr el.label then el.label else none }
  else if el.type == some "arrow" then
    some { base with
            type := "arrow"
            x := jsOrNum el.startX 0
            y := jsOrNum el.startY 0
            points := some [(0, 0),
              (jsOrNum el.endX 100 - jsOrNum el.startX 0,
               jsOrNum el.endY 100 - jsOrNum el.startY 0)] }
  else if el.type == some "text" then
    some { base with
            type := "text"
            x := jsOrNum el.x 0
            y := jsOrNum el.y 0
            text := some (jsOrStr el.text (jsOrStr el.label "Text"))
            fontSize := some (jsOrNum el.fontSize 20)
            strokeColor := if isDarkMode then "#f8fafc" else "#0f172a" }
  else none

/-- The final element list produced by one run of the effect: either the
pass-through branch's patched clone or the mapped-and-filtered descriptor
branch. -/
inductive NormResult where
  | passthrough (els : List RawEl)
  | mapped (els : List OutEl)
deriving Repr, DecidableEq

/-- Which branch a result came from. -/
def NormResult.isPassthrough : NormResult → Bool
  | .passthrough _ => true
  | .mapped _ => false

/-- The branch classification and per-branch processing of the effect
(lines 31-93). -/
def normalizeElements (isDarkMode : Bool) (now : Nat) (els : List RawEl) :
    NormResult :=
  if isAlreadyExcalidraw els then
    .passthrough (colorPatch isDarkMode els)
  else
    .mapped (els.enum.filterMap
      (fun p => mapDescriptor isDarkMode now p.1 p.2))

/-! ## Shared concrete states and helper lemmas -/

/-- A concrete diagram state (the App's initial state, abridged). -/
def exDiagramState : DiagramState :=
  { mermaidCode := "graph TD"
    excalidrawElements := Json.arr []
    title := "Untitled Diagram" }

/-- A concrete App state on the MERMAID tab with empty history. -/
def exAppState : AppState :=
  { activeTab := DiagramType.MERMAID
    isLoading := false
    diagramState := exDiagramState
    history := [] }

/-- A concrete App state on the EXCALIDRAW tab with empty history. -/
def exAppStateEx : AppState :=
  { activeTab := DiagramType.EXCALIDRAW
    isLoading := false
    diagramState := exDiagramState
    history := [] }

/-- The stroke patch is pointwise idempotent: a patched stroke is
`some "#e2e8f0"`, which is truthy and not black. -/
theorem patchEl_patchEl (el : RawEl) : patchEl (patchEl el) = patchEl el := by
  have base : ∀ e : RawEl, e.strokeColor = some "#e2e8f0" → patchEl e = e := by
    intro e he
    unfold patchEl
    rw [he]
    simp [truthyStr]
  by_cases hc : (el.strokeColor == some "#000000" || el.strokeColor == some "black"
      || !truthyStr el.strokeColor) = true
  · have h1 : patchEl el = { el with strokeColor := some "#e2e8f0" } := by
      unfold patchEl
      rw [if_pos hc]
    rw [h1]
    exact base _ rfl
  · have h1 : patchEl el = el := by
      unfold patchEl
      rw [if_neg hc]
    rw [h1, h1]

/-! ## Theorems settling the claims -/

/-- C6: rendering an empty or whitespace-only source yields the explicit
empty scene (empty svg content) and clears any prior error state, whatever
the external renderer's outcome would have been: no RenderError is ever
produced on that path. -/
theorem renderDiagram_blank_source (st : EditorState) (code : String)
    (outcome : RenderOutcome) (h : isBlank code = true) :
    renderDiagram st code outcome = { svgContent := "", error := none } := by
  unfold renderDiagram requestRender
  simp [h]

/-- Witness for `renderDiagram_blank_source` at a whitespace-only source, a
prior error state, and a failing renderer outcome. -/
theorem renderDiagram_blank_source_witness :
    isBlank " \n\t " = true ∧
    renderDiagram { svgContent := "old", error := some "boom" } " \n\t "
      (RenderOutcome.failure "bad") = { svgContent := "", error := none } :=
  ⟨by decide, renderDiagram_blank_source _ _ _ (by decide)⟩

/-- C8: toggling the orientation twice, starting from source
"graph TD\nA-->B" with orientation state TD, first rewrites the header to
"graph LR" and then returns the source (and the orientation state) to
exactly the original, with everything after the header line untouched by
both applications. -/
theorem toggleOrientation_roundtrip :
    (toggleOrientation EditorDir.TD "graph TD\nA-->B").2 = "graph LR\nA-->B" ∧
    (toggleOrientation (toggleOrientation EditorDir.TD "graph TD\nA-->B").1
        (toggleOrientation EditorDir.TD "graph TD\nA-->B").2) =
      (EditorDir.TD, "graph TD\nA-->B") ∧
    (toggleOrientation EditorDir.TD "graph TD\nA-->B").2.toList.dropWhile
        (fun c => c != '\n') =
      "graph TD\nA-->B".toList.dropWhile (fun c => c != '\n') := by
  decide

/-- Scale bounds are preserved by a single zoom operation. -/
theorem applyZoom_bounds (s : ℚ) (hs1 : 1 / 10 ≤ s) (hs2 : s ≤ 5)
    (op : ZoomOp) : 1 / 10 ≤ applyZoom s op ∧ applyZoom s op ≤ 5 := by
  cases op with
  | zoomIn =>
    refine ⟨le_min (by norm_num) (by linarith), min_le_left _ _⟩
  | zoomOut =>
    refine ⟨le_max_left _ _, max_le (by norm_num) (by linarith)⟩
  | wheel deltaY =>
    refine ⟨le_max_left _ _, max_le (by norm_num) (min_le_left _ _)⟩

/-- C9: starting from scale 1, any sequence of zoom-in button presses,
zoom-out button presses and ctrl/cmd wheel zooms (with any delta) keeps the
viewport scale within [0.1, 5]. -/
theorem zoom_scale_clamped (ops : List ZoomOp) :
    1 / 10 ≤ runZoom 1 ops ∧ runZoom 1 ops ≤ 5 := by
  have key : ∀ (l : List ZoomOp) (s : ℚ), 1 / 10 ≤ s → s ≤ 5 →
      1 / 10 ≤ runZoom s l ∧ runZoom s l ≤ 5 := by
    intro l
    induction l with
    | nil => intro s h1 h2; exact ⟨h1, h2⟩
    | cons op rest ih =>
      intro s h1 h2
      have h := applyZoom_bounds s h1 h2 op
      simpa [runZoom, List.foldl_cons] using ih (applyZoom s op) h.1 h.2
  exact key ops 1 (by norm_num) (by norm_num)

/-- C10: after every save, the history holds at most 20 entries, the newly
saved item sits at index 0 (newest first), and the tail keeps only the 19
newest previous entries — so when a 21st entry would be added, the oldest
one is dropped. -/
theorem saveToHistory_bounded (now : Nat) (st : AppState) (ns : DiagramState) :
    (saveToHistory now st ns).history.length ≤ 20 ∧
    (saveToHistory now st ns).history.head? =
      some (mkHistoryItem now st.activeTab ns) ∧
    (saveToHistory now st ns).history =
      mkHistoryItem now st.activeTab ns :: st.history.take 19 := by
  have h3 : (saveToHistory now st ns).history =
      mkHistoryItem now st.activeTab ns :: st.history.take 19 := by
    show (mkHistoryItem now st.activeTab ns :: st.history).take 20 =
      mkHistoryItem now st.activeTab ns :: st.history.take 19
    rw [show (20 : Nat) = 19 + 1 from rfl, List.take_succ_cons]
  refine ⟨?_, ?_, h3⟩
  · rw [h3]
    simp [List.length_take]
  · rw [h3]
    rfl

/-- C1: evaluating the render path at the racing trace.  Render requests are
issued for source "X" and then for source "Y"; "Y"'s render completes first
(with svg "svg:Y") and "X"'s completes second (with svg "svg:X").  Because
`renderDiagram`'s continuation applies every completion unconditionally —
there is no request-generation counter — the displayed scene afterwards is
"X"'s stale result, not "Y"'s, contradicting the claim that the scene
reflects Y and never X. -/
theorem mermaid_stale_render_race :
    (completeRender
        (completeRender
          (requestRender (requestRender { svgContent := "", error := none } "X") "Y")
          (RenderOutcome.success "svg:Y"))
        (RenderOutcome.success "svg:X")).svgContent = "svg:X" ∧
    (completeRender
        (completeRender
          (requestRender (requestRender { svgContent := "", error := none } "X") "Y")
          (RenderOutcome.success "svg:Y"))
        (RenderOutcome.success "svg:X")).svgContent ≠ "svg:Y" := by
  decide

/-- C2: evaluating the node-patch commit at the collision source.  Committing
a rename of label "Box" to "Square" against source "A[Box]\nB[Box]" rewrites
BOTH delimiter-enclosed occurrences — the regex is built with the global
flag, so `String.replace` substitutes every match — and does not leave
`B[Box]` unchanged, contradicting the claim (and the code's own comment that
only the first match is replaced). -/
theorem submitNodeUpdate_rewrites_all_occurrences :
    submitNodeUpdate "Box" "Square" "A[Box]\nB[Box]" = "A[Square]\nB[Square]" ∧
    submitNodeUpdate "Box" "Square" "A[Box]\nB[Box]" ≠ "A[Square]\nB[Box]" := by
  decide

/-- C3 counterexample: a two-item list in which only the first item carries
an identity and a kind is classified as already canonical (the source checks
`elements.some(...)`), so the pass-through branch is taken even though the
second item lacks both fields; under the claim's "if and only if every item
carries them" the branch would not be taken here. -/
theorem normalizer_branch_counterexample :
    (normalizeElements true 0
      [{ id := some "a", type := some "rectangle" },
       { type := some "rectangle" }]).isPassthrough = true ∧
    specAlreadyCanonical
      [{ id := some "a", type := some "rectangle" },
       { type := some "rectangle" }] = false := by
  decide

/-- C3 amended: the normalizer takes the "already canonical"
pass-through-with-color-patch branch if and only if SOME item in the list
carries a (truthy) identity and kind field; when no item does, every item is
instead mapped per-kind as a ShapeDescriptor (unrecognized kinds dropped). -/
theorem normalizer_branch_iff (isDarkMode : Bool) (now : Nat)
    (els : List RawEl) :
    ((normalizeElements isDarkMode now els).isPassthrough = true ↔
      els.any hasIdAndType = true) ∧
    (els.any hasIdAndType = false →
      normalizeElements isDarkMode now els =
        NormResult.mapped (els.enum.filterMap
          (fun p => mapDescriptor isDarkMode now p.1 p.2))) := by
  constructor
  · unfold normalizeElements isAlreadyExcalidraw
    split <;> simp_all [NormResult.isPassthrough]
  · intro h
    unfold normalizeElements isAlreadyExcalidraw
    simp [h]

/-- Witness for `normalizer_branch_iff`: a singleton list with no identity or
kind goes to the descriptor-mapping branch. -/
theorem normalizer_branch_iff_witness :
    normalizeElements true 0 [({} : RawEl)] =
      NormResult.mapped ([({} : RawEl)].enum.filterMap
        (fun p => mapDescriptor true 0 p.1 p.2)) :=
  (normalizer_branch_iff true 0 [({} : RawEl)]).2 rfl

/-- C4 counterexample: a successful text-to-scene conversion starting from a
state with empty history.  The conversion succeeds (no alert), updates
DiagramState, but writes nothing to history: afterwards the history is still
empty, so it contains no entry whose state equals the new DiagramState. -/
theorem convert_writes_no_history :
    (handleConvertToExcalidraw exAppState (some (Json.arr [Json.null]))).2 = false ∧
    (handleConvertToExcalidraw exAppState
      (some (Json.arr [Json.null]))).1.history = [] ∧
    ¬ ∃ item ∈ (handleConvertToExcalidraw exAppState
        (some (Json.arr [Json.null]))).1.history,
      item.state = (handleConvertToExcalidraw exAppState
        (some (Json.arr [Json.null]))).1.diagramState := by
  refine ⟨rfl, rfl, ?_⟩
  rintro ⟨item, h, -⟩
  have : (handleConvertToExcalidraw exAppState
      (some (Json.arr [Json.null]))).1.history = [] := rfl
  rw [this] at h
  exact (List.not_mem_nil item) h

/-- C4 amended: the new DiagramState is written to history (as the newest
entry, whose state equals the new DiagramState) on every successful
generation — on either tab — but a successful conversion leaves the history
untouched: only generation writes history. -/
theorem history_written_on_generation_only :
    (∀ (now : Nat) (loading : Bool) (ds : DiagramState)
        (hist : List HistoryItem) (prompt response : String) (po : Option Json),
      (handleGenerate now ⟨DiagramType.MERMAID, loading, ds, hist⟩ prompt
          (some response) po).1.history.head? =
        some (mkHistoryItem now DiagramType.MERMAID
          (handleGenerate now ⟨DiagramType.MERMAID, loading, ds, hist⟩ prompt
            (some response) po).1.diagramState)) ∧
    (∀ (now : Nat) (loading : Bool) (ds : DiagramState)
        (hist : List HistoryItem) (prompt response : String) (v : Json),
      (handleGenerate now ⟨DiagramType.EXCALIDRAW, loading, ds, hist⟩ prompt
          (some response) (some v)).1.history.head? =
        some (mkHistoryItem now DiagramType.EXCALIDRAW
          (handleGenerate now ⟨DiagramType.EXCALIDRAW, loading, ds, hist⟩ prompt
            (some response) (some v)).1.diagramState)) ∧
    (∀ (st : AppState) (v : Json),
      (handleConvertToExcalidraw st (some v)).1.history = st.history) := by
  refine ⟨?_, ?_, ?_⟩
  · intro now loading ds hist prompt response po
    rfl
  · intro now loading ds hist prompt response v
    rfl
  · intro st v
    rfl

/-- C5 counterexample: a shape-list input text that is parseable JSON but not
an array — the parse outcome corresponding to input text "\x7b\x22a\x22:1\x7d"
is the object `Json.obj [("a", 1)]`.  The code only catches a JSON.parse
throw, so this non-array input is NOT rejected: no alert is shown and
DiagramState is mutated (its excalidrawElements becomes the object),
contradicting the claim for this input. -/
theorem nonarray_json_accepted :
    (Json.obj [("a", Json.num 1)]).isArr = false ∧
    (handleGenerate 0 exAppStateEx "p" (some "resp")
        (some (Json.obj [("a", Json.num 1)]))).2 = false ∧
    exAppStateEx.diagramState.excalidrawElements = Json.arr [] ∧
    (handleGenerate 0 exAppStateEx "p" (some "resp")
        (some (Json.obj [("a", Json.num 1)]))).1.diagramState.excalidrawElements =
      Json.obj [("a", Json.num 1)] ∧
    Json.obj [("a", Json.num 1)] ≠ Json.arr [] :=
  ⟨rfl, rfl, rfl, rfl, fun h => Json.noConfusion h⟩

/-- C5 amended: ingestion fails hard exactly when `JSON.parse` throws (the
input text is not parseable JSON at all, e.g. "\x7bnot an array\x7d"): the
blocking alert is shown and DiagramState and history are left entirely
unchanged.  A parseable input that is not an array is not rejected. -/
theorem unparseable_json_rejected (now : Nat) (loading : Bool)
    (ds : DiagramState) (hist : List HistoryItem) (prompt response : String) :
    handleGenerate now ⟨DiagramType.EXCALIDRAW, loading, ds, hist⟩ prompt
        (some response) none =
      (⟨DiagramType.EXCALIDRAW, false, ds, hist⟩, true) := by
  rfl

/-- C7: the dark-theme color patch on an already-canonical element list is
idempotent — applying it twice yields the same list as applying it once,
because after one pass no stroke is unset, "#000000" or "black"; the
light-theme branch passes the list through untouched, and an element whose
stroke is set, non-empty and not black is left untouched by the patch. -/
theorem colorPatch_idempotent (d : Bool) (els : List RawEl) (el : RawEl)
    (s : String) (hs : el.strokeColor = some s) (h1 : s ≠ "#000000")
    (h2 : s ≠ "black") (h3 : s ≠ "") :
    colorPatch d (colorPatch d els) = colorPatch d els ∧
    colorPatch false els = els ∧
    patchEl el = el := by
  refine ⟨?_, rfl, ?_⟩
  · unfold colorPatch
    cases d with
    | false => rfl
    | true =>
      simp only [if_true]
      rw [List.map_map]
      exact List.map_congr_left fun a _ => patchEl_patchEl a
  · unfold patchEl
    rw [hs]
    simp [truthyStr, h1, h2, h3]

/-- Witness for `colorPatch_idempotent` at a dark-theme list holding a black
stroke and a missing stroke, and a red-stroked element for the
untouched-stroke part. -/
theorem colorPatch_idempotent_witness :
    colorPatch true (colorPatch true
        [{ strokeColor := some "#000000" }, ({} : RawEl)]) =
      colorPatch true [{ strokeColor := some "#000000" }, ({} : RawEl)] ∧
    colorPatch false [{ strokeColor := some "#000000" }, ({} : RawEl)] =
      [{ strokeColor := some "#000000" }, ({} : RawEl)] ∧
    patchEl { strokeColor := some "red" } =
      ({ strokeColor := some "red" } : RawEl) :=
  colorPatch_idempotent true [{ strokeColor := some "#000000" }, ({} : RawEl)]
    { strokeColor := some "red" } "red" rfl (by decide) (by decide) (by decide)

end AiMermaid
